import Mathlib

/-!
Verification of the ASRMT activity monitor's metrics and alerting core.

The definitions below are a shallow embedding of the C++ sources
(`monitor.cpp`, `monitor_display.cpp`, `system_notifications.cpp`,
`monitor.h`).  `unsigned long` arithmetic is modelled as natural-number
arithmetic modulo `2 ^ 64`; `float` arithmetic is modelled over `ℚ`
(exact rational arithmetic), which agrees with the source's `float`
comparisons at every concrete input used in this file.
-/

namespace ASRMT

/-- Modulus of C++ `unsigned long` (64-bit) arithmetic. -/
def W64 : ℕ := 2 ^ 64

/-- C++ unsigned subtraction `a - b` on `unsigned long` values
(both assumed reduced, i.e. `< W64`): wraps around modulo `2 ^ 64`. -/
def wrapSub (a b : ℕ) : ℕ := (a + W64 - b) % W64

/-- `struct CPUTimeInfo` (monitor.h:43-67): per-line `/proc/stat`
tick counters, all C++ `unsigned long`. -/
structure CPUTimeInfo where
  user : ℕ
  nice : ℕ
  system : ℕ
  idle : ℕ
  iowait : ℕ
  irq : ℕ
  softirq : ℕ
  steal : ℕ
deriving DecidableEq

/-- The mathematical (unwrapped) sum of all eight counters. -/
def CPUTimeInfo.rawTotal (c : CPUTimeInfo) : ℕ :=
  c.user + c.nice + c.system + c.idle + c.iowait + c.irq + c.softirq + c.steal

/-- Componentwise monotonicity of two consecutive snapshots: every one of
the eight counters is non-decreasing (the live-system invariant of the
spec's `CpuTimeSnapshot`). -/
def CPUTimeInfo.Mono (p c : CPUTimeInfo) : Prop :=
  p.user ≤ c.user ∧ p.nice ≤ c.nice ∧ p.system ≤ c.system ∧
  p.idle ≤ c.idle ∧ p.iowait ≤ c.iowait ∧ p.irq ≤ c.irq ∧
  p.softirq ≤ c.softirq ∧ p.steal ≤ c.steal

instance (p c : CPUTimeInfo) : Decidable (p.Mono c) := by
  unfold CPUTimeInfo.Mono
  infer_instance

/-- `CPUTimeInfo::total()` (monitor.h:54-56): sum of all fields, in
`unsigned long` arithmetic (wraps modulo `2 ^ 64`). -/
def CPUTimeInfo.total (c : CPUTimeInfo) : ℕ := c.rawTotal % W64

/-- `CPUTimeInfo::idle_time()` (monitor.h:59-61): `idle + iowait`. -/
def CPUTimeInfo.idle_time (c : CPUTimeInfo) : ℕ := (c.idle + c.iowait) % W64

/-- The usage formula of `updateCPUInfo` (monitor.cpp:285-290) for one
`/proc/stat` line, given the previous and current counters:
`100 * (1 - idle_delta / total_delta)` where both deltas are computed by
C++ unsigned subtraction. -/
def cpuPct (prev curr : CPUTimeInfo) : ℚ :=
  100 * (1 - (wrapSub curr.idle_time prev.idle_time : ℚ) /
             (wrapSub curr.total prev.total : ℚ))

/-- One line of the `updateCPUInfo` loop body (monitor.cpp:285-298),
restricted to the usage value it leaves behind: the usage is recomputed
exactly when `total_delta > 0` (with `total_delta` the C++ unsigned
difference), otherwise the previously displayed value is kept. -/
def lineUsage (prev curr : CPUTimeInfo) (old : ℚ) : ℚ :=
  if 0 < wrapSub curr.total prev.total then cpuPct prev curr else old

/-- `struct CPUInfo` (monitor.h:36-40). -/
structure CPUInfo where
  core_usage : List ℚ
  total_usage : ℚ
  num_cores : ℤ
deriving DecidableEq

/-- Per-core part of the `updateCPUInfo` loop (monitor.cpp:280-301):
walks the per-core lines (`idx` is the running `core_count`), and pushes a
percentage for a core only when previous data for its index exists and the
unsigned `total_delta` is positive. -/
def collectCores (prevTimes : List CPUTimeInfo) (idx : ℕ) :
    List CPUTimeInfo → List ℚ
  | [] => []
  | c :: rest =>
    match prevTimes[idx]? with
    | some p =>
      if 0 < wrapSub c.total p.total then
        cpuPct p c :: collectCores prevTimes (idx + 1) rest
      else collectCores prevTimes (idx + 1) rest
    | none => collectCores prevTimes (idx + 1) rest

/-- `ActivityMonitor::updateCPUInfo` (monitor.cpp:251-311), as a function
of the previously stored CPU times, the freshly parsed `/proc/stat` CPU
lines (head = the aggregate `cpu` line, tail = the per-core lines) and the
previous `cpu_info` contents.  The aggregate usage is recomputed only when
a previous aggregate line exists and its unsigned `total_delta` is
positive; otherwise `cpu_info.total_usage` keeps whatever value it held
before the call. -/
def updateCPUInfo (prevTimes lines : List CPUTimeInfo) (old : CPUInfo) :
    CPUInfo :=
  { total_usage :=
      match lines, prevTimes with
      | c :: _, p :: _ => lineUsage p c old.total_usage
      | _, _ => old.total_usage
    core_usage := collectCores prevTimes 1 lines.tail
    num_cores := (lines.length : ℤ) - 1 }

/-- Alert levels derived by the monitor (spec `AlertLevel`). -/
inductive AlertLevel
  | normal
  | preWarning
  | warning
deriving DecidableEq

/-- The level classification of `checkAndSendNotifications`
(system_notifications.cpp:44-47) and `displayAlert`
(monitor_display.cpp:350-352): `should_warn = usage > threshold`,
`should_pre_warn = !should_warn && usage > threshold * 0.8`. -/
def alertLevel (usage threshold : ℚ) : AlertLevel :=
  let should_warn : Bool := decide (usage > threshold)
  let should_pre_warn : Bool :=
    !should_warn && decide (usage > threshold * (4 / 5))
  if should_warn then .warning
  else if should_pre_warn then .preWarning
  else .normal

/-- The persisted notification state (monitor.h:138-145): the
`warning_state` / `pre_warning_state` flags (both default-initialized to
`false`) and the `last_notification` time point, modelled in whole
seconds because `checkAndSendNotifications` compares the elapsed time in
seconds. -/
structure NotifState where
  warning_state : Bool
  pre_warning_state : Bool
  last_notification : ℤ
deriving DecidableEq

/-- The two notification kinds `checkAndSendNotifications` can emit:
the critical over-threshold one and the advisory pre-warning one. -/
inductive Notification
  | critical
  | advisory
deriving DecidableEq

/-- `ActivityMonitor::checkAndSendNotifications`
(system_notifications.cpp:39-105) as a state transition: given whether
system notifications are enabled, the threshold, the current
`cpu_info.total_usage` and the current time `now` (in seconds), it
returns the new persisted state together with the notification fired (if
any).  `last_notification` is updated exactly when a notification is
sent; the two state flags are always rewritten at the end of the call —
unless the function returned early because notifications are disabled. -/
def checkAndSendNotifications (enabled : Bool) (threshold usage : ℚ)
    (now : ℤ) (s : NotifState) : NotifState × Option Notification :=
  if !enabled then (s, none)
  else
    let pre_warning_threshold := threshold * (4 / 5)
    let should_warn : Bool := decide (usage > threshold)
    let should_pre_warn : Bool :=
      !should_warn && decide (usage > pre_warning_threshold)
    let elapsed := now - s.last_notification
    let state_changed : Bool :=
      (should_warn != s.warning_state) ||
        (should_pre_warn != s.pre_warning_state)
    let fired_last :=
      if state_changed || decide (elapsed ≥ 60) then
        if should_warn then (some Notification.critical, now)
        else if should_pre_warn then (some Notification.advisory, now)
        else ((none : Option Notification), s.last_notification)
      else ((none : Option Notification), s.last_notification)
    ({ warning_state := should_warn
       pre_warning_state := should_pre_warn
       last_notification := fired_last.2 }, fired_last.1)

/-- Runs `checkAndSendNotifications` over a sequence of
`(usage, time)` samples and collects the notification fired at each
step. -/
def notifRun (enabled : Bool) (threshold : ℚ) :
    NotifState → List (ℚ × ℤ) → List (Option Notification)
  | _, [] => []
  | s, (u, t) :: rest =>
    let r := checkAndSendNotifications enabled threshold u t s
    r.2 :: notifRun enabled threshold r.1 rest

/-- The final persisted state after a sequence of
`checkAndSendNotifications` calls. -/
def notifFold (enabled : Bool) (threshold : ℚ) (s : NotifState)
    (inputs : List (ℚ × ℤ)) : NotifState :=
  inputs.foldl
    (fun s p => (checkAndSendNotifications enabled threshold p.1 p.2 s).1) s

/-- `struct DiskInfo` (monitor.h:93-104).  An unavailable read latency is
represented by `-1` exactly as in the source (monitor.cpp:632,
formatLatency treats negative values as "N/A"). -/
structure DiskInfo where
  device : String
  mount_point : String
  total_space : ℕ
  free_space : ℕ
  used_space : ℕ
  percent_used : ℚ
  read_latency_ms : ℚ
  io_operations : ℕ
deriving DecidableEq

/-- One parsed `/proc/diskstats` line as read by `updateDiskLatency`
(monitor.cpp:638-649). -/
structure DiskStatLine where
  major : ℤ
  minor : ℤ
  dev_name : String
  reads : ℕ
  reads_merged : ℕ
  sectors_read : ℕ
  read_ms : ℕ
  writes : ℕ
  writes_merged : ℕ
  sectors_written : ℕ
  write_ms : ℕ
  ios_in_progress : ℕ
  io_ms : ℕ
  weighted_io_ms : ℕ
deriving DecidableEq

/-- Helper for `shortName`: walks the characters left to right keeping
the characters seen since the most recent `/` (in reverse). -/
def shortNameAux : List Char → List Char → List Char
  | acc, [] => acc.reverse
  | _, '/' :: rest => shortNameAux [] rest
  | acc, c :: rest => shortNameAux (c :: acc) rest

/-- The device short-name extraction of monitor.cpp:627-628
(`rfind('/')` followed by `substr(pos + 1)`): the part of the device
path after the last `/`, or the whole name when there is no `/`. -/
def shortName (device : String) : String := ⟨shortNameAux [] device.data⟩

/-- Effect of one `/proc/diskstats` line on one monitored disk
(monitor.cpp:652-661): when the short names match, the read latency is
set to the cumulative quotient `read_ms / reads` provided `reads > 0`,
and the total I/O operation count is stored. -/
def applyStatLine (d : DiskInfo) (l : DiskStatLine) : DiskInfo :=
  if shortName d.device = l.dev_name then
    { d with
      read_latency_ms :=
        if 0 < l.reads then (l.read_ms : ℚ) / (l.reads : ℚ)
        else d.read_latency_ms
      io_operations := (l.reads + l.writes) % W64 }
  else d

/-- `ActivityMonitor::updateDiskLatency` (monitor.cpp:613-669): every
monitored disk first has its read latency reset to `-1` ("unavailable"),
then every parsed stats line is applied in file order. -/
def updateDiskLatency (disks : List DiskInfo) (stats : List DiskStatLine) :
    List DiskInfo :=
  disks.map (fun d => stats.foldl applyStatLine { d with read_latency_ms := -1 })

/-- Modelled from the spec (§3 DiskMetrics, §4.2 computeDiskLatency) —
the delta-based read latency the specification prescribes but which no
function under src/ computes: `readLatencyMs = deltaReadTimeMs /
deltaReadCount` across one sampling cycle when the delta read count is
positive, otherwise unavailable (`-1`, not zero). -/
def specDeltaReadLatency (prevReads prevReadMs currReads currReadMs : ℕ) :
    ℚ :=
  if prevReads < currReads then
    ((currReadMs - prevReadMs : ℕ) : ℚ) / ((currReads - prevReads : ℕ) : ℚ)
  else -1

/-- The memory percent-used computation of `updateMemoryInfo`
(monitor.cpp:350-352): `used = total - available` in unsigned
arithmetic, and `percent = 100 * used / total` guarded by
`total > 0`, else `0`. -/
def memPercentUsed (mem_total mem_available : ℕ) : ℚ :=
  if 0 < mem_total then
    100 * (wrapSub mem_total mem_available : ℚ) / (mem_total : ℚ)
  else 0

/-- The swap percent-used computation of `updateMemoryInfo`
(monitor.cpp:354-355), analogous to `memPercentUsed`. -/
def swapPercentUsed (swap_total swap_free : ℕ) : ℚ :=
  if 0 < swap_total then
    100 * (wrapSub swap_total swap_free : ℚ) / (swap_total : ℚ)
  else 0

/-- The disk percent-used computation of `updateDiskInfo`
(monitor.cpp:413-420): `used_space = total_space - free_space` and
`percent = 100 * used / total` guarded by `total_space > 0`, else `0`. -/
def diskPercentUsed (total_space free_space : ℕ) : ℚ :=
  if 0 < total_space then
    100 * (wrapSub total_space free_space : ℚ) / (total_space : ℚ)
  else 0

/-- A live process in the OS model used for `killProcess`: its pid and
whether it survives (ignores or handles) SIGTERM. -/
structure OsProc where
  pid : ℤ
  survives_sigterm : Bool
deriving DecidableEq

/-- The two signals `killProcess` can send. -/
inductive Sig
  | sigterm
  | sigkill
deriving DecidableEq

/-- The OS state seen by `kill(2)`: the set of live processes and a log
of every signal actually delivered. -/
structure OsState where
  procs : List OsProc
  delivered : List (ℤ × Sig)
deriving DecidableEq

/-- Model of the `kill(2)` system call: returns `0` and delivers the
signal when a process with the pid exists (a SIGTERM kills the process
unless it survives it; a SIGKILL always kills it), and returns `-1`
without delivering anything when no such process exists. -/
def osKill (os : OsState) (pid : ℤ) (sig : Sig) : ℤ × OsState :=
  if os.procs.any (fun p => p.pid = pid) then
    let procs' :=
      match sig with
      | .sigterm => os.procs.filter (fun p => p.pid ≠ pid ∨ p.survives_sigterm)
      | .sigkill => os.procs.filter (fun p => p.pid ≠ pid)
    (0, { procs := procs', delivered := os.delivered ++ [(pid, sig)] })
  else (-1, os)

/-- `ActivityMonitor::killProcess` (monitor_display.cpp:548-566):
rejects non-positive pids, sends SIGTERM, and only when that very call
returned non-zero retries with SIGKILL; returns whether the last signal
call succeeded.  (The concluding `collectData()` rebuilds the process
list from the OS state, which the model returns directly.) -/
def killProcess (os : OsState) (pid : ℤ) : Bool × OsState :=
  if pid ≤ 0 then (false, os)
  else
    let r1 := osKill os pid .sigterm
    if r1.1 ≠ 0 then
      let r2 := osKill r1.2 pid .sigkill
      (r2.1 = 0, r2.2)
    else (true, r1.2)

/-- The scrolling keys handled by `ActivityMonitor::handleInput`
(monitor_display.cpp:640-673): arrow up/down, page up/down
(KEY_PPAGE/KEY_NPAGE), and home/end. -/
inductive ScrollKey
  | up
  | down
  | pageUp
  | pageDown
  | home
  | toEnd
deriving DecidableEq

/-- Model of `static_cast<int>(processes.size() - 1)`
(monitor_display.cpp:649,661,672): for an empty list the `size_t`
subtraction wraps to `2 ^ 64 - 1`, whose truncation to 32-bit `int` is
`-1`; for any realistic non-empty list it is `len - 1`.  Both cases are
exactly `(len : ℤ) - 1`. -/
def castSizeM1 (len : ℕ) : ℤ := (len : ℤ) - 1

/-- The scroll cases of `ActivityMonitor::handleInput`
(monitor_display.cpp:640-673), as a function of the key, the current
`process_list_offset` and the process-list length. -/
def handleScroll (k : ScrollKey) (offset : ℤ) (len : ℕ) : ℤ :=
  match k with
  | .up => if offset > 0 then offset - 1 else offset
  | .down => if offset < castSizeM1 len then offset + 1 else offset
  | .pageUp => max 0 (offset - 10)
  | .pageDown => min (castSizeM1 len) (offset + 10)
  | .home => 0
  | .toEnd => max 0 (castSizeM1 len)

/-! ### Concrete inputs used by the theorems below -/

/-- A previous aggregate `/proc/stat` line: 50 user ticks, 50 idle ticks
(total 100, idle time 50). -/
def prevRegress : CPUTimeInfo := ⟨50, 0, 0, 50, 0, 0, 0, 0⟩

/-- A current aggregate line after a counter reset: 2 user ticks, 8 idle
ticks (total 10 < previous total 100). -/
def currRegress : CPUTimeInfo := ⟨2, 0, 0, 8, 0, 0, 0, 0⟩

/-- A previous line whose idle counter alone later regresses: total 10,
idle time 10. -/
def prevIdleRegress : CPUTimeInfo := ⟨0, 0, 0, 10, 0, 0, 0, 0⟩

/-- A current line with a larger total (25 > 10) but a smaller idle
counter (5 < 10) than `prevIdleRegress`. -/
def currIdleRegress : CPUTimeInfo := ⟨20, 0, 0, 5, 0, 0, 0, 0⟩

/-- A parsed `/proc/stat` CPU section (aggregate line plus one core)
for a very first update. -/
def statLinesFirst : List CPUTimeInfo :=
  [⟨100, 0, 0, 100, 0, 0, 0, 0⟩, ⟨50, 0, 0, 50, 0, 0, 0, 0⟩]

/-- A monitored root filesystem entry. -/
def diskRoot : DiskInfo := ⟨"/dev/sda1", "/", 1000, 500, 500, 50, -1, 0⟩

/-- The `/proc/diskstats` line for `sda1` in the second sampling cycle:
cumulative 20 reads taking a cumulative 1100 ms (the first cycle had
read 10 reads taking 100 ms). -/
def statCycle2 : DiskStatLine := ⟨8, 1, "sda1", 20, 0, 0, 1100, 5, 0, 0, 0, 0, 0, 0⟩

/-- An OS state with a single process, pid 5, that survives SIGTERM. -/
def osSurvivor : OsState := ⟨[⟨5, true⟩], []⟩

/-! ### Helper lemmas -/

theorem W64_eq : W64 = 18446744073709551616 := by norm_num [W64]

/-- Unsigned subtraction of reduced values is the true difference when no
wraparound occurs. -/
theorem wrapSub_of_le {a b : ℕ} (hba : b ≤ a) (ha : a < W64) :
    wrapSub a b = a - b := by
  simp only [wrapSub, W64_eq] at *
  omega

/-- Evaluation lemma for `alertLevel`: the three half-open bands the
strict comparisons of the source carve out. -/
theorem alertLevel_eval (u t : ℚ) :
    (t < u → alertLevel u t = AlertLevel.warning) ∧
    (u ≤ t → t * (4 / 5) < u → alertLevel u t = AlertLevel.preWarning) ∧
    (u ≤ t → u ≤ t * (4 / 5) → alertLevel u t = AlertLevel.normal) := by
  refine ⟨?_, ?_, ?_⟩
  · intro h
    simp [alertLevel, h]
  · intro h1 h2
    simp [alertLevel, not_lt.mpr h1, h2]
  · intro h1 h2
    simp [alertLevel, not_lt.mpr h1, not_lt.mpr h2]

/-- One `checkAndSendNotifications` call keeps the two persisted flags
mutually exclusive. -/
theorem checkAndSend_flags_exclusive (enabled : Bool) (threshold usage : ℚ)
    (now : ℤ) (s : NotifState)
    (h : (s.pre_warning_state && s.warning_state) = false) :
    (((checkAndSendNotifications enabled threshold usage now s).1).pre_warning_state &&
      ((checkAndSendNotifications enabled threshold usage now s).1).warning_state) =
      false := by
  unfold checkAndSendNotifications
  cases enabled with
  | false => simpa using h
  | true =>
    cases hw : decide (usage > threshold) <;> simp [hw]

/-- The flag-exclusion invariant is preserved along any whole input
trace. -/
theorem notifFold_flags_exclusive (enabled : Bool) (threshold : ℚ)
    (inputs : List (ℚ × ℤ)) :
    ∀ s : NotifState, (s.pre_warning_state && s.warning_state) = false →
      ((notifFold enabled threshold s inputs).pre_warning_state &&
        (notifFold enabled threshold s inputs).warning_state) = false := by
  induction inputs with
  | nil => intro s h; simpa [notifFold] using h
  | cons p rest ih =>
    intro s h
    simpa [notifFold] using
      ih _ (checkAndSend_flags_exclusive enabled threshold p.1 p.2 s h)

/-! ### Claim theorems -/

/-- Claim C2, counterexample: with threshold 80 the boundary values
belong to the *lower* level in the code — usage 64.0 yields Normal (the
claim says PreWarning) and usage 80.0 yields PreWarning (the claim says
Warning), because both comparisons in
`checkAndSendNotifications`/`displayAlert` are strict. -/
theorem alertLevel_boundary_counterexample :
    alertLevel 64 80 = AlertLevel.normal ∧
    alertLevel 64 80 ≠ AlertLevel.preWarning ∧
    alertLevel 80 80 = AlertLevel.preWarning ∧
    alertLevel 80 80 ≠ AlertLevel.warning := by
  have h1 : alertLevel 64 80 = AlertLevel.normal :=
    (alertLevel_eval 64 80).2.2 (by norm_num) (by norm_num)
  have h2 : alertLevel 80 80 = AlertLevel.preWarning :=
    (alertLevel_eval 80 80).2.1 (by norm_num) (by norm_num)
  exact ⟨h1, by simp [h1], h2, by simp [h2]⟩

/-- Claim C2, amended: for threshold 80, usage 63.9 and 64.0 yield
Normal and usage 79.9 and 80.0 yield PreWarning; in general PreWarning
begins strictly above `0.8 * threshold` and Warning strictly above
`threshold`, with each boundary value itself belonging to the lower
level. -/
theorem alertLevel_strict_boundaries :
    alertLevel (639 / 10) 80 = AlertLevel.normal ∧
    alertLevel 64 80 = AlertLevel.normal ∧
    alertLevel (799 / 10) 80 = AlertLevel.preWarning ∧
    alertLevel 80 80 = AlertLevel.preWarning ∧
    ∀ usage threshold : ℚ,
      (threshold < usage → alertLevel usage threshold = AlertLevel.warning) ∧
      (usage ≤ threshold → threshold * (4 / 5) < usage →
        alertLevel usage threshold = AlertLevel.preWarning) ∧
      (usage ≤ threshold → usage ≤ threshold * (4 / 5) →
        alertLevel usage threshold = AlertLevel.normal) :=
  ⟨(alertLevel_eval (639 / 10) 80).2.2 (by norm_num) (by norm_num),
   (alertLevel_eval 64 80).2.2 (by norm_num) (by norm_num),
   (alertLevel_eval (799 / 10) 80).2.1 (by norm_num) (by norm_num),
   (alertLevel_eval 80 80).2.1 (by norm_num) (by norm_num),
   alertLevel_eval⟩

/-- Witness for the amended C2 theorem at usage 90, threshold 80. -/
theorem alertLevel_strict_boundaries_witness :
    (80 : ℚ) < 90 ∧ alertLevel 90 80 = AlertLevel.warning :=
  ⟨by norm_num, (alertLevel_strict_boundaries.2.2.2.2 90 80).1 (by norm_num)⟩

/-- Claim C3: with threshold 80, notifications enabled, and the Normal
starting state, the usage samples 85 at t = 0 s, t = 10 s and t = 65 s
fire exactly two notifications — a critical one at t = 0 (transition
into the warning state) and a critical one at t = 65 (the 60-second
cooldown has elapsed) — and none at t = 10. -/
theorem notification_sequence_two_fires :
    notifRun true 80 ⟨false, false, 0⟩ [(85, 0), (85, 10), (85, 65)] =
      [some Notification.critical, none, some Notification.critical] := by
  norm_num [notifRun, checkAndSendNotifications]

/-- Claim C9: a memory snapshot with total 0, a swap state with swap
total 0, and a disk entry with total space 0 all produce a usage
percentage of exactly 0 — the division is guarded, never taken. -/
theorem zero_total_percent_zero (mem_available swap_free disk_free : ℕ) :
    memPercentUsed 0 mem_available = 0 ∧
    swapPercentUsed 0 swap_free = 0 ∧
    diskPercentUsed 0 disk_free = 0 := by
  simp [memPercentUsed, swapPercentUsed, diskPercentUsed]

/-- Claim C10: starting from the default flag state (both flags false)
with any initial notification timestamp, after every sequence of
`checkAndSendNotifications` calls the persisted `pre_warning_state` and
`warning_state` flags are never both true, so the stored state always
encodes exactly one of Normal, PreWarning, Warning. -/
theorem warning_flags_mutually_exclusive (enabled : Bool) (threshold : ℚ)
    (t0 : ℤ) (inputs : List (ℚ × ℤ)) :
    ((notifFold enabled threshold ⟨false, false, t0⟩ inputs).pre_warning_state &&
      (notifFold enabled threshold ⟨false, false, t0⟩ inputs).warning_state) =
      false :=
  notifFold_flags_exclusive enabled threshold inputs ⟨false, false, t0⟩ rfl

/-- Claim C1: at a counter regression (`curr.total < prev.total`, here
totals 10 < 100 after a reset), the update does *not* leave the usage
unchanged — the unsigned `total_delta` wraps around to a positive value,
the guard `total_delta > 0` passes, and the usage is recomputed from the
wrapped deltas to a value that (in exact arithmetic) is negative. -/
theorem counter_regression_recomputes_usage :
    currRegress.total < prevRegress.total ∧
    lineUsage prevRegress currRegress 37 ≠ 37 ∧
    lineUsage prevRegress currRegress 37 < 0 := by
  refine ⟨by decide, ?_, ?_⟩ <;>
    norm_num [lineUsage, cpuPct, wrapSub, W64, prevRegress, currRegress,
      CPUTimeInfo.total, CPUTimeInfo.idle_time, CPUTimeInfo.rawTotal]

/-- Claim C4: `updateDiskLatency` sets the read latency to the
cumulative-since-boot quotient `read_ms / reads` (here `1100 / 20 = 55`),
not to the per-cycle delta quotient the spec prescribes (with the first
cycle at 10 reads / 100 ms, the delta latency is `1000 / 10 = 100`). -/
theorem disk_latency_cumulative_not_delta :
    (updateDiskLatency [diskRoot] [statCycle2]).map DiskInfo.read_latency_ms =
      [55] ∧
    specDeltaReadLatency 10 100 20 1100 = 100 ∧
    (55 : ℚ) ≠ 100 := by
  refine ⟨?_, ?_, by norm_num⟩
  · norm_num [updateDiskLatency, applyStatLine, shortName, shortNameAux,
      diskRoot, statCycle2]
  · norm_num [specDeltaReadLatency]

/-- Claim C5, counterexample: a snapshot pair whose `totalDelta` is
positive (15) but whose idle counter regressed makes the unsigned
`idle_delta` wrap, and the computed usage falls outside `[0, 100]` (it is
negative). -/
theorem cpu_usage_range_counterexample :
    0 < wrapSub currIdleRegress.total prevIdleRegress.total ∧
    ¬(0 ≤ cpuPct prevIdleRegress currIdleRegress ∧
        cpuPct prevIdleRegress currIdleRegress ≤ 100) := by
  have hneg : cpuPct prevIdleRegress currIdleRegress < 0 := by
    norm_num [cpuPct, wrapSub, W64, prevIdleRegress, currIdleRegress,
      CPUTimeInfo.total, CPUTimeInfo.idle_time, CPUTimeInfo.rawTotal]
  exact ⟨by decide, fun h => absurd h.1 hneg.not_le⟩

/-- Claim C5, amended: for every pair of consecutive CPU snapshots whose
eight counters are componentwise non-decreasing and whose current total
fits in 64 bits, if the total delta is positive then the computed usage
`100 * (1 - idleDelta / totalDelta)` lies in `[0, 100]`. -/
theorem cpu_usage_in_range (p c : CPUTimeInfo) (hm : p.Mono c)
    (hb : c.rawTotal < W64) (hpos : 0 < wrapSub c.total p.total) :
    0 ≤ cpuPct p c ∧ cpuPct p c ≤ 100 := by
  obtain ⟨h1, h2, h3, h4, h5, h6, h7, h8⟩ := hm
  have hpr : p.rawTotal ≤ c.rawTotal := by
    unfold CPUTimeInfo.rawTotal
    omega
  have hpb : p.rawTotal < W64 := lt_of_le_of_lt hpr hb
  have hct : c.total = c.rawTotal := Nat.mod_eq_of_lt hb
  have hpt : p.total = p.rawTotal := Nat.mod_eq_of_lt hpb
  have hbi : c.idle + c.iowait ≤ c.rawTotal := by
    unfold CPUTimeInfo.rawTotal
    omega
  have hbpi : p.idle + p.iowait ≤ p.rawTotal := by
    unfold CPUTimeInfo.rawTotal
    omega
  have hci : c.idle_time = c.idle + c.iowait :=
    Nat.mod_eq_of_lt (lt_of_le_of_lt hbi hb)
  have hpi : p.idle_time = p.idle + p.iowait :=
    Nat.mod_eq_of_lt (lt_of_le_of_lt hbpi hpb)
  have hwt : wrapSub c.total p.total = c.rawTotal - p.rawTotal := by
    rw [hct, hpt]
    exact wrapSub_of_le hpr hb
  have hii : p.idle + p.iowait ≤ c.idle + c.iowait := by omega
  have hwi : wrapSub c.idle_time p.idle_time =
      (c.idle + c.iowait) - (p.idle + p.iowait) := by
    rw [hci, hpi]
    exact wrapSub_of_le hii (lt_of_le_of_lt hbi hb)
  have hTpos : 0 < c.rawTotal - p.rawTotal := by rwa [hwt] at hpos
  have hIT : (c.idle + c.iowait) - (p.idle + p.iowait) ≤
      c.rawTotal - p.rawTotal := by
    unfold CPUTimeInfo.rawTotal at *
    omega
  unfold cpuPct
  rw [hwt, hwi]
  have hTQ : (0 : ℚ) < ((c.rawTotal - p.rawTotal : ℕ) : ℚ) := by
    exact_mod_cast hTpos
  have hr0 : (0 : ℚ) ≤
      (((c.idle + c.iowait) - (p.idle + p.iowait) : ℕ) : ℚ) /
        ((c.rawTotal - p.rawTotal : ℕ) : ℚ) :=
    div_nonneg (Nat.cast_nonneg _) hTQ.le
  have hr1 : (((c.idle + c.iowait) - (p.idle + p.iowait) : ℕ) : ℚ) /
      ((c.rawTotal - p.rawTotal : ℕ) : ℚ) ≤ 1 := by
    rw [div_le_one hTQ]
    exact_mod_cast hIT
  constructor <;> nlinarith [hr0, hr1]

/-- Witness for the amended C5 theorem: the snapshot pair going from all
zeros to 3 user ticks and 1 idle tick is monotone, fits in 64 bits, has a
positive total delta, and its usage is in `[0, 100]`. -/
theorem cpu_usage_in_range_witness :
    CPUTimeInfo.Mono ⟨0, 0, 0, 0, 0, 0, 0, 0⟩ ⟨3, 0, 0, 1, 0, 0, 0, 0⟩ ∧
    (0 ≤ cpuPct ⟨0, 0, 0, 0, 0, 0, 0, 0⟩ ⟨3, 0, 0, 1, 0, 0, 0, 0⟩ ∧
      cpuPct ⟨0, 0, 0, 0, 0, 0, 0, 0⟩ ⟨3, 0, 0, 1, 0, 0, 0, 0⟩ ≤ 100) :=
  ⟨by decide,
   cpu_usage_in_range _ _ (by decide)
     (by norm_num [CPUTimeInfo.rawTotal, W64]) (by decide)⟩

/-- Claim C6: on the very first CPU update (no previous snapshot) no
usage is computed and `cpu_info.total_usage` keeps whatever value the
uninitialized field held before the call; that stale value is *not*
guaranteed to be one the alert logic treats as Normal — if the
indeterminate initial value is 90 with threshold 80, the very first
update leaves 90 behind, which the alert logic classifies as Warning. -/
theorem first_update_keeps_stale_usage :
    (updateCPUInfo [] statLinesFirst ⟨[], 90, 0⟩).total_usage = 90 ∧
    alertLevel 90 80 = AlertLevel.warning := by
  constructor
  · norm_num [updateCPUInfo, statLinesFirst]
  · exact (alertLevel_eval 90 80).1 (by norm_num)

/-- Claim C7, counterexample: a process (pid 5) that receives the
graceful SIGTERM but survives it is never escalated to SIGKILL —
`killProcess` reports success after the SIGTERM call alone, the process
is still alive afterwards, and no SIGKILL was ever delivered. -/
theorem terminate_no_escalation_counterexample :
    (killProcess osSurvivor 5).1 = true ∧
    (killProcess osSurvivor 5).2.procs = [⟨5, true⟩] ∧
    (5, Sig.sigkill) ∉ (killProcess osSurvivor 5).2.delivered := by
  decide

/-- Claim C7, amended: `killProcess` sends SIGTERM and escalates to
SIGKILL only when the SIGTERM *call itself* fails (it performs no grace
check of whether the process survived — a delivered SIGTERM ends the
procedure with success); and for every positive pid naming no existing
process it returns `false` with the OS state completely unchanged (no
signal delivered to anything). -/
theorem terminate_failed_on_missing_pid (os : OsState) (pid : ℤ)
    (hpid : 0 < pid) :
    ((∀ p ∈ os.procs, p.pid ≠ pid) → killProcess os pid = (false, os)) ∧
    (os.procs.any (fun p => p.pid = pid) = true →
      (killProcess os pid).1 = true ∧
      (killProcess os pid).2.delivered =
        os.delivered ++ [(pid, Sig.sigterm)]) := by
  constructor
  · intro h
    have hany : (os.procs.any fun p => decide (p.pid = pid)) = false := by
      simp only [List.any_eq_false, decide_eq_true_eq]
      exact h
    simp [killProcess, osKill, hany, not_le.mpr hpid]
  · intro h
    simp [killProcess, osKill, h, not_le.mpr hpid]

/-- Witness for the amended C7 theorem: pid 7 in an empty OS state. -/
theorem terminate_failed_on_missing_pid_witness :
    killProcess ⟨[], []⟩ 7 = (false, ⟨[], []⟩) :=
  (terminate_failed_on_missing_pid ⟨[], []⟩ 7 (by norm_num)).1 (by simp)

/-- Claim C8: the page-down handler on an *empty* process list moves the
cursor offset from 0 to −1, leaving the claimed interval
`[0, max 0 (len − 1)] = [0, 0]` — `processes.size() - 1` wraps as
`size_t` and its `int` cast is −1, which `std::min` then selects. -/
theorem pagedown_empty_negative_offset :
    handleScroll ScrollKey.pageDown 0 0 = -1 ∧
    handleScroll ScrollKey.pageDown 0 0 < 0 := by
  decide

end ASRMT
